import Mathlib

/-!
Verification development for the Auralink meeting-intelligence repository.

The repository stores meetings, diarized utterances, retrieval chunks with
pgvector embeddings, structured summaries, file metadata and ASR job records
in PostgreSQL, and exposes a vector-similarity SQL function match_chunks.
Two HTTP client layers (an axios api client and a fetch service client) call
planned backend endpoints.

Modelling conventions:
* SQL double precision is modelled by the rationals, timestamps by Nat,
  uuids and text by String.
* A nullable SQL column is an Option field; a result row set is a List.
* The pgvector cosine-distance operator is a primitive of the database
  extension, not code of this repository, so it enters the model as an
  explicit function parameter dist; the SQL ORDER BY over it is modelled
  by insertion sort, which like any sort realises the ordering contract.
* Fallible SQL statements return Except String.
-/

/-- A row of the chunks table as declared in the Supabase setup SQL
(CREATE TABLE chunks: id bigserial, meeting_id uuid, speaker text null,
start_seconds and end_seconds double precision, topic text null, text text,
embedding vector(3072) null, created_at timestamptz). -/
structure Chunk where
  id : Nat
  meeting_id : String
  speaker : Option String
  start_seconds : ℚ
  end_seconds : ℚ
  topic : Option String
  text : String
  embedding : Option (List ℚ)
  created_at : Nat
deriving Repr, DecidableEq

/-- A row of the table returned by the match_chunks SQL function: the full
chunk record plus the computed similarity column. -/
structure MatchRow where
  id : Nat
  meeting_id : String
  speaker : Option String
  start_seconds : ℚ
  end_seconds : ℚ
  topic : Option String
  text : String
  embedding : Option (List ℚ)
  created_at : Nat
  similarity : ℚ
deriving Repr, DecidableEq

/-- Declared dimension of the chunks.embedding column in the Supabase setup
SQL: embedding vector(3072), chosen for text-embedding-3-large. -/
def chunksColumnDim : Nat := 3072

/-- Declared dimension of the chunks.embedding column in schemas/db.sql:
embedding VECTOR(3072). -/
def dbSqlChunksColumnDim : Nat := 3072

/-- Dimension of the ivfflat index idx_chunks_vector of schemas/db.sql; the
index is built on the embedding column and therefore carries the dimension
that column declares. -/
def ivfflatIndexDim : Nat := dbSqlChunksColumnDim

/-- Declared dimension of the query_embedding parameter of match_chunks:
query_embedding vector(3072). -/
def matchChunksParamDim : Nat := 3072

/-- Default of the match_count parameter of match_chunks (DEFAULT 5). -/
def matchCountDefault : Nat := 5

/-- The WHERE clause of match_chunks: rows of the chunks table that belong
to the requested meeting and have a non-null embedding. -/
def matchCandidates (db : List Chunk) (p_meeting_id : String) : List Chunk :=
  db.filter (fun c => c.meeting_id == p_meeting_id && c.embedding.isSome)

/-- Distance of a chunk row to the query vector: the SQL expression
chunks.embedding <=> query_embedding, with dist standing for the pgvector
cosine-distance operator. The WHERE clause guarantees the embedding is
non-null, so the Option default is never reached on candidate rows. -/
def chunkDist (dist : List ℚ → List ℚ → ℚ) (q : List ℚ) (c : Chunk) : ℚ :=
  dist (c.embedding.getD []) q

/-- The SELECT list of match_chunks: every column of the chunk row, plus
similarity computed as 1 - (chunks.embedding <=> query_embedding). -/
def toMatchRow (dist : List ℚ → List ℚ → ℚ) (q : List ℚ) (c : Chunk) : MatchRow :=
  { id := c.id
    meeting_id := c.meeting_id
    speaker := c.speaker
    start_seconds := c.start_seconds
    end_seconds := c.end_seconds
    topic := c.topic
    text := c.text
    embedding := c.embedding
    created_at := c.created_at
    similarity := 1 - chunkDist dist q c }

/-- The ORDER BY relation of match_chunks: ascending distance to the query
embedding. -/
def distLE (dist : List ℚ → List ℚ → ℚ) (q : List ℚ) (a b : Chunk) : Prop :=
  chunkDist dist q a ≤ chunkDist dist q b

instance (dist : List ℚ → List ℚ → ℚ) (q : List ℚ) :
    DecidableRel (distLE dist q) :=
  fun a b => inferInstanceAs (Decidable (chunkDist dist q a ≤ chunkDist dist q b))

/-- The match_chunks SQL function of the Supabase setup file. Its
query_embedding parameter is declared vector(3072), so a call with a query
vector of any other length fails fast with a dimension mismatch before the
query body runs; otherwise the body filters the chunks table to the meeting
rows with non-null embeddings, orders them by ascending distance to the
query, truncates to match_count rows and emits each with its similarity. -/
def match_chunks (dist : List ℚ → List ℚ → ℚ) (db : List Chunk)
    (query_embedding : List ℚ) (p_meeting_id : String) (match_count : Nat) :
    Except String (List MatchRow) :=
  if query_embedding.length ≠ matchChunksParamDim then
    Except.error "DimensionMismatch"
  else
    Except.ok
      ((((matchCandidates db p_meeting_id).insertionSort
            (distLE dist query_embedding)).take match_count).map
        (toMatchRow dist query_embedding))

def sampleChunk (i : Nat) (m : String) (e : Option (List ℚ)) : Chunk :=
  { id := i, meeting_id := m, speaker := none, start_seconds := 0,
    end_seconds := 1, topic := none, text := "t", embedding := e,
    created_at := 0 }

/-- Sanity check mirroring the example of the spec testable properties: a
meeting with chunks at distance 3 and 1 and one null-embedding chunk, plus a
chunk of another meeting, yields exactly the two embedded chunks of the
meeting in ascending distance order. -/
theorem match_body_orders_and_filters :
    (((matchCandidates
          [sampleChunk 1 "m" (some [3]), sampleChunk 2 "m" (some [1]),
           sampleChunk 3 "m" none, sampleChunk 4 "x" (some [2])] "m").insertionSort
        (distLE (fun e _ => e.headD 0) [])).take 5).map (fun c => c.id) =
      [2, 1] := by
  decide

/-- Sanity check: the empty query vector is not of the declared dimension
and is rejected. -/
theorem match_chunks_rejects_empty_query :
    match_chunks (fun _ _ => 0) [] [] "m" 5 =
      Except.error "DimensionMismatch" := by
  rfl

theorem matchCandidates_mem (db : List Chunk) (m : String) (c : Chunk) :
    c ∈ matchCandidates db m ↔ c ∈ db ∧ c.meeting_id = m ∧ c.embedding ≠ none := by
  simp [matchCandidates, List.mem_filter, Option.isSome_iff_ne_none, and_assoc]

theorem match_chunks_ok (dist : List ℚ → List ℚ → ℚ) (db : List Chunk)
    (q : List ℚ) (m : String) (K : Nat) (hq : q.length = matchChunksParamDim) :
    match_chunks dist db q m K =
      Except.ok ((((matchCandidates db m).insertionSort (distLE dist q)).take K).map
        (toMatchRow dist q)) := by
  simp [match_chunks, hq]

instance distLE_total (dist : List ℚ → List ℚ → ℚ) (q : List ℚ) :
    IsTotal Chunk (distLE dist q) :=
  ⟨fun a b => le_total (chunkDist dist q a) (chunkDist dist q b)⟩

instance distLE_trans (dist : List ℚ → List ℚ → ℚ) (q : List ℚ) :
    IsTrans Chunk (distLE dist q) :=
  ⟨fun _ _ _ hab hbc => le_trans hab hbc⟩

/-- C1: for every query embedding q of the declared dimension, meeting id m
and requested count K, match_chunks returns exactly min K N rows where N is
the number of chunks of meeting m with non-null embeddings; every returned
row belongs to meeting m and has a non-null embedding, and the rows are in
non-decreasing order of distance between their embedding and q. -/
theorem match_chunks_topk_contract (dist : List ℚ → List ℚ → ℚ)
    (db : List Chunk) (q : List ℚ) (m : String) (K : Nat)
    (hq : q.length = matchChunksParamDim) :
    ∃ rows, match_chunks dist db q m K = Except.ok rows ∧
      rows.length = min K (matchCandidates db m).length ∧
      (∀ r ∈ rows, r.meeting_id = m ∧ r.embedding ≠ none) ∧
      rows.Pairwise (fun a b =>
        dist (a.embedding.getD []) q ≤ dist (b.embedding.getD []) q) := by
  refine ⟨_, match_chunks_ok dist db q m K hq, ?_, ?_, ?_⟩
  · simp [List.length_take,
      (List.perm_insertionSort (distLE dist q) (matchCandidates db m)).length_eq]
  · intro r hr
    obtain ⟨c, hc, rfl⟩ := List.mem_map.mp hr
    have hc' : c ∈ matchCandidates db m :=
      ((List.perm_insertionSort (distLE dist q) (matchCandidates db m)).mem_iff).mp
        ((List.take_sublist K _).subset hc)
    have := (matchCandidates_mem db m c).mp hc'
    exact ⟨this.2.1, this.2.2⟩
  · have hs : List.Sorted (distLE dist q)
        ((matchCandidates db m).insertionSort (distLE dist q)) :=
      List.sorted_insertionSort (distLE dist q) (matchCandidates db m)
    have ht : List.Pairwise (distLE dist q)
        (((matchCandidates db m).insertionSort (distLE dist q)).take K) :=
      List.Pairwise.sublist (List.take_sublist K _) hs
    exact List.pairwise_map.mpr ht

theorem match_chunks_mem_candidates (dist : List ℚ → List ℚ → ℚ)
    (db : List Chunk) (q : List ℚ) (m : String) (K : Nat)
    (rows : List MatchRow) (r : MatchRow)
    (hrows : match_chunks dist db q m K = Except.ok rows) (hr : r ∈ rows) :
    ∃ c ∈ matchCandidates db m, r = toMatchRow dist q c := by
  by_cases hq : q.length = matchChunksParamDim
  · rw [match_chunks_ok dist db q m K hq] at hrows
    obtain rfl : rows = _ := (Except.ok.injEq _ _).mp hrows.symm
    obtain ⟨c, hc, rfl⟩ := List.mem_map.mp hr
    exact ⟨c,
      ((List.perm_insertionSort (distLE dist q) (matchCandidates db m)).mem_iff).mp
        ((List.take_sublist K _).subset hc), rfl⟩
  · simp [match_chunks, hq] at hrows

/-- Closed instance of the C1 contract at a concrete query of the declared
dimension 3072 against an empty chunks table. -/
theorem match_chunks_topk_contract_witness :
    ∃ rows, match_chunks (fun e _ => e.headD 0) [] (List.replicate 3072 0) "m" 5 =
        Except.ok rows ∧
      rows.length = min 5 (matchCandidates [] "m").length ∧
      (∀ r ∈ rows, r.meeting_id = "m" ∧ r.embedding ≠ none) ∧
      rows.Pairwise (fun a b =>
        (a.embedding.getD []).headD 0 ≤ (b.embedding.getD []).headD 0) :=
  match_chunks_topk_contract (fun e _ => e.headD 0) [] (List.replicate 3072 0) "m" 5
    (List.length_replicate 3072 0)

/-- C2: every row returned by match_chunks is built from a chunk stored in
the chunks table, carries each of its nine columns unchanged, and its
similarity column equals 1 minus the distance between that chunk embedding
and the query embedding. -/
theorem match_chunks_row_carries_chunk (dist : List ℚ → List ℚ → ℚ)
    (db : List Chunk) (q : List ℚ) (m : String) (K : Nat)
    (rows : List MatchRow) (r : MatchRow)
    (hrows : match_chunks dist db q m K = Except.ok rows) (hr : r ∈ rows) :
    ∃ c, c ∈ db ∧
      r.id = c.id ∧ r.meeting_id = c.meeting_id ∧ r.speaker = c.speaker ∧
      r.start_seconds = c.start_seconds ∧ r.end_seconds = c.end_seconds ∧
      r.topic = c.topic ∧ r.text = c.text ∧ r.embedding = c.embedding ∧
      r.created_at = c.created_at ∧
      r.similarity = 1 - dist (c.embedding.getD []) q := by
  obtain ⟨c, hc, rfl⟩ :=
    match_chunks_mem_candidates dist db q m K rows r hrows hr
  exact ⟨c, ((matchCandidates_mem db m c).mp hc).1, rfl, rfl, rfl, rfl, rfl,
    rfl, rfl, rfl, rfl, rfl⟩

/-- Closed instance of the C2 row shape at a one-chunk table and a concrete
query of the declared dimension 3072. -/
theorem match_chunks_row_carries_chunk_witness :
    ∃ c, c ∈ [sampleChunk 1 "m" (some [2])] ∧
      (toMatchRow (fun e _ => e.headD 0) (List.replicate 3072 0)
          (sampleChunk 1 "m" (some [2]))).id = c.id ∧
      (toMatchRow (fun e _ => e.headD 0) (List.replicate 3072 0)
          (sampleChunk 1 "m" (some [2]))).meeting_id = c.meeting_id ∧
      (toMatchRow (fun e _ => e.headD 0) (List.replicate 3072 0)
          (sampleChunk 1 "m" (some [2]))).speaker = c.speaker ∧
      (toMatchRow (fun e _ => e.headD 0) (List.replicate 3072 0)
          (sampleChunk 1 "m" (some [2]))).start_seconds = c.start_seconds ∧
      (toMatchRow (fun e _ => e.headD 0) (List.replicate 3072 0)
          (sampleChunk 1 "m" (some [2]))).end_seconds = c.end_seconds ∧
      (toMatchRow (fun e _ => e.headD 0) (List.replicate 3072 0)
          (sampleChunk 1 "m" (some [2]))).topic = c.topic ∧
      (toMatchRow (fun e _ => e.headD 0) (List.replicate 3072 0)
          (sampleChunk 1 "m" (some [2]))).text = c.text ∧
      (toMatchRow (fun e _ => e.headD 0) (List.replicate 3072 0)
          (sampleChunk 1 "m" (some [2]))).embedding = c.embedding ∧
      (toMatchRow (fun e _ => e.headD 0) (List.replicate 3072 0)
          (sampleChunk 1 "m" (some [2]))).created_at = c.created_at ∧
      (toMatchRow (fun e _ => e.headD 0) (List.replicate 3072 0)
          (sampleChunk 1 "m" (some [2]))).similarity =
        1 - (c.embedding.getD []).headD 0 :=
  match_chunks_row_carries_chunk (fun e _ => e.headD 0)
    [sampleChunk 1 "m" (some [2])] (List.replicate 3072 0) "m" 5
    [toMatchRow (fun e _ => e.headD 0) (List.replicate 3072 0)
        (sampleChunk 1 "m" (some [2]))]
    (toMatchRow (fun e _ => e.headD 0) (List.replicate 3072 0)
        (sampleChunk 1 "m" (some [2])))
    (by rw [match_chunks_ok _ _ _ _ _ (List.length_replicate 3072 0)]; rfl)
    (List.mem_singleton.mpr rfl)

/-- C3: with a query of the declared dimension, a meeting whose chunks all
lack embeddings, and in particular a meeting with no chunks at all, yields
the empty result set from match_chunks rather than an error; no chunk with
a null embedding is ever emitted. -/
theorem match_chunks_empty_meeting_ok (dist : List ℚ → List ℚ → ℚ)
    (db : List Chunk) (q : List ℚ) (m : String) (K : Nat)
    (hq : q.length = matchChunksParamDim)
    (hnull : ∀ c ∈ db, c.meeting_id = m → c.embedding = none) :
    match_chunks dist db q m K = Except.ok [] := by
  have hcand : matchCandidates db m = [] := by
    rw [List.eq_nil_iff_forall_not_mem]
    intro c hc
    obtain ⟨hmem, hm, hemb⟩ := (matchCandidates_mem db m c).mp hc
    exact hemb (hnull c hmem hm)
  rw [match_chunks_ok dist db q m K hq, hcand]
  simp [List.insertionSort]

/-- Closed instance of C3: a table holding one chunk of the meeting with a
null embedding and one chunk of another meeting gives the empty result. -/
theorem match_chunks_empty_meeting_ok_witness :
    match_chunks (fun e _ => e.headD 0)
      [sampleChunk 3 "m" none, sampleChunk 4 "x" (some [1])]
      (List.replicate 3072 0) "m" 5 = Except.ok [] :=
  match_chunks_empty_meeting_ok (fun e _ => e.headD 0)
    [sampleChunk 3 "m" none, sampleChunk 4 "x" (some [1])]
    (List.replicate 3072 0) "m" 5 (List.length_replicate 3072 0)
    (by decide)

/-- C4: the declared embedding dimension is 3072 end-to-end, over the
chunks.embedding column of both schema files, the ivfflat index built on
that column, and the query_embedding parameter of match_chunks; a query
vector of any other length fails fast with the dimension mismatch error,
and a query vector of length 3072 never reaches that error branch. -/
theorem embedding_dim_end_to_end (dist : List ℚ → List ℚ → ℚ)
    (db : List Chunk) (q q2 : List ℚ) (m : String) (K : Nat)
    (hbad : q.length ≠ matchChunksParamDim)
    (hgood : q2.length = matchChunksParamDim) :
    chunksColumnDim = 3072 ∧ dbSqlChunksColumnDim = 3072 ∧
    ivfflatIndexDim = 3072 ∧ matchChunksParamDim = 3072 ∧
    match_chunks dist db q m K = Except.error "DimensionMismatch" ∧
    ∃ rows, match_chunks dist db q2 m K = Except.ok rows := by
  refine ⟨rfl, rfl, rfl, rfl, ?_, ?_⟩
  · simp [match_chunks, hbad]
  · exact ⟨_, match_chunks_ok dist db q2 m K hgood⟩

/-- Closed instance of C4: the empty query vector is rejected with the
dimension mismatch error while a vector of length 3072 is accepted. -/
theorem embedding_dim_end_to_end_witness :
    chunksColumnDim = 3072 ∧ dbSqlChunksColumnDim = 3072 ∧
    ivfflatIndexDim = 3072 ∧ matchChunksParamDim = 3072 ∧
    match_chunks (fun e _ => e.headD 0) [] [] "m" 5 =
      Except.error "DimensionMismatch" ∧
    ∃ rows, match_chunks (fun e _ => e.headD 0) [] (List.replicate 3072 0) "m" 5 =
      Except.ok rows :=
  embedding_dim_end_to_end (fun e _ => e.headD 0) [] [] (List.replicate 3072 0)
    "m" 5 (by decide) (List.length_replicate 3072 0)

/-- The six lifecycle status values for meetings that the schema comments,
the models README and the spec enumerate: uploaded, asr_started, asr_done,
indexed, summarized, error. -/
def validMeetingStatus (s : String) : Bool :=
  s == "uploaded" || s == "asr_started" || s == "asr_done" ||
  s == "indexed" || s == "summarized" || s == "error"

/-- Column default of meetings.status in the Supabase setup SQL:
status TEXT NOT NULL DEFAULT uploaded. -/
def supabaseStatusDefault : String := "uploaded"

/-- Column default of meetings.status in schemas/db.sql:
status TEXT DEFAULT processing. -/
def dbSqlStatusDefault : String := "processing"

/-- Insert of a meetings row under the Supabase setup schema, projected to
the status column: a missing status falls back to the column default, and
the meetings_status_check CHECK constraint rejects any value outside the
six enumerated ones. -/
def supabaseInsertMeeting (status : Option String) (tbl : List String) :
    Except String (List String) :=
  let s := status.getD supabaseStatusDefault
  if validMeetingStatus s then Except.ok (s :: tbl)
  else Except.error "meetings_status_check"

/-- Insert of a meetings row under schemas/db.sql, projected to the status
column: a missing status falls back to the column default and no CHECK
constraint is declared, so every value is accepted. -/
def dbSqlInsertMeeting (status : Option String) (tbl : List String) :
    List String :=
  (status.getD dbSqlStatusDefault) :: tbl

/-- C5 fails on schemas/db.sql: an insert relying on that file column
default stores the status processing, which is outside the six enumerated
values, and no constraint rejects it; the Supabase setup schema, by
contrast, defaults to uploaded, which is one of the six. -/
theorem meeting_status_default_bug :
    dbSqlInsertMeeting none [] = [dbSqlStatusDefault] ∧
    validMeetingStatus dbSqlStatusDefault = false ∧
    supabaseInsertMeeting none [] = Except.ok [supabaseStatusDefault] ∧
    validMeetingStatus supabaseStatusDefault = true :=
  ⟨rfl, by decide, rfl, by decide⟩

/-- A row of the files table: meeting_id references meetings with
ON DELETE CASCADE. -/
structure FileRow where
  id : Nat
  meeting_id : String
  path : String
  kind : String
deriving Repr, DecidableEq

/-- A row of the utterances table: meeting_id references meetings with
ON DELETE CASCADE. -/
structure UtteranceRow where
  id : Nat
  meeting_id : String
  speaker : String
  start_seconds : ℚ
  end_seconds : ℚ
  text : String
deriving Repr, DecidableEq

/-- A row of the summaries table: meeting_id is its primary key and
references meetings with ON DELETE CASCADE. -/
structure SummaryRow where
  meeting_id : String
  payload : String
deriving Repr, DecidableEq

/-- A row of the asr_jobs table: meeting_id references meetings with
ON DELETE CASCADE. -/
structure AsrJobRow where
  id : String
  meeting_id : String
  provider : String
  status : String
deriving Repr, DecidableEq

/-- The relational store: the meetings table projected to its ids, and the
five dependent tables, each carrying a meeting_id foreign key declared
ON DELETE CASCADE. -/
structure DBState where
  meetings : List String
  files : List FileRow
  utterances : List UtteranceRow
  chunks : List Chunk
  summaries : List SummaryRow
  asr_jobs : List AsrJobRow
deriving Repr, DecidableEq

/-- DELETE FROM meetings WHERE id = m, together with the semantics of the
five ON DELETE CASCADE foreign key declarations of the Supabase setup SQL:
the meetings row disappears and so does every files, utterances, chunks,
summaries and asr_jobs row referencing it, in the same operation. -/
def deleteMeetingCascade (m : String) (db : DBState) : DBState :=
  { meetings := db.meetings.filter (fun i => i != m)
    files := db.files.filter (fun r => r.meeting_id != m)
    utterances := db.utterances.filter (fun r => r.meeting_id != m)
    chunks := db.chunks.filter (fun r => r.meeting_id != m)
    summaries := db.summaries.filter (fun r => r.meeting_id != m)
    asr_jobs := db.asr_jobs.filter (fun r => r.meeting_id != m) }

/-- C6: deleting a meeting removes the meeting itself and leaves no file,
utterance, chunk, summary or asr_job row referencing it. -/
theorem delete_meeting_cascades (m : String) (db : DBState) :
    (deleteMeetingCascade m db).meetings.all (fun i => i != m) = true ∧
    (deleteMeetingCascade m db).files.all (fun r => r.meeting_id != m) = true ∧
    (deleteMeetingCascade m db).utterances.all (fun r => r.meeting_id != m) = true ∧
    (deleteMeetingCascade m db).chunks.all (fun r => r.meeting_id != m) = true ∧
    (deleteMeetingCascade m db).summaries.all (fun r => r.meeting_id != m) = true ∧
    (deleteMeetingCascade m db).asr_jobs.all (fun r => r.meeting_id != m) = true := by
  refine ⟨?_, ?_, ?_, ?_, ?_, ?_⟩ <;>
    exact List.all_eq_true.mpr (fun r hr => (List.mem_filter.mp hr).2)

/-- A JSON value, as produced by JSON.stringify and consumed from parsed
response bodies by the two HTTP clients. -/
inductive Json where
  | null : Json
  | bool : Bool → Json
  | num : ℚ → Json
  | str : String → Json
  | arr : List Json → Json
  | obj : List (String × Json) → Json

/-- JavaScript truthiness of a JSON value: null, false, zero and the empty
string are falsy; every array and object is truthy. -/
def jsTruthy : Json → Bool
  | Json.null => false
  | Json.bool b => b
  | Json.num q => q != 0
  | Json.str s => s != ""
  | Json.arr _ => true
  | Json.obj _ => true

/-- Property read v.key on a JSON value: defined only on objects holding
the key; none models the JavaScript undefined. -/
def getField (j : Json) (key : String) : Option Json :=
  match j with
  | Json.obj fs => (fs.find? (fun p => p.1 == key)).map (fun p => p.2)
  | _ => none

def hasField (j : Json) (key : String) : Bool :=
  (getField j key).isSome

/-- The top-level keys of a JSON object, in declaration order. -/
def fieldNames : Json → List String
  | Json.obj fs => fs.map (fun p => p.1)
  | _ => []

/-- The top-level keys of the object stored under key inside j. -/
def fieldNamesAt (j : Json) (key : String) : List String :=
  match getField j key with
  | some f => fieldNames f
  | none => []

/-- Request body the axios client askChat posts to /api/chat (api.js):
an object with meeting_id, query, k, a filters object whose speaker is the
given speaker or null, whose time_start is always null and whose time_end
is the converted number or null, and rerank. Falsy speaker and time_end
values collapse to null exactly as the JavaScript or-else and conditional
expressions do; time_end is modelled after its Number conversion. -/
def askChatBody (meeting_id query : String) (k : ℚ) (speaker : Option String)
    (time_end : Option ℚ) (rerank : Bool) : Json :=
  Json.obj
    [("meeting_id", Json.str meeting_id),
     ("query", Json.str query),
     ("k", Json.num k),
     ("filters", Json.obj
        [("speaker", match speaker with
            | some s => if s != "" then Json.str s else Json.null
            | none => Json.null),
         ("time_start", Json.null),
         ("time_end", match time_end with
            | some t => if t != 0 then Json.num t else Json.null
            | none => Json.null)]),
     ("rerank", Json.bool rerank)]

/-- Default of the k parameter of askChat. -/
def askChatKDefault : ℚ := 12

/-- Default of the rerank parameter of askChat. -/
def askChatRerankDefault : Bool := true

/-- Request body the fetch service client chat function posts to the chat
endpoint: JSON.stringify of an object holding only meeting_id and query. -/
def serviceChatBody (meeting_id query : String) : Json :=
  Json.obj [("meeting_id", Json.str meeting_id), ("query", Json.str query)]

/-- C7 fails as stated: the chat request of the fetch service client lacks
the k, filters and rerank fields at a concrete input. -/
theorem service_chat_body_lacks_fields :
    hasField (serviceChatBody "m1" "what was decided") "k" = false ∧
    hasField (serviceChatBody "m1" "what was decided") "filters" = false ∧
    hasField (serviceChatBody "m1" "what was decided") "rerank" = false :=
  ⟨rfl, rfl, rfl⟩

/-- C7 amended: every chat request of the axios client carries exactly the
fields meeting_id, query, k, filters and rerank, with the filters object
carrying exactly speaker, time_start and time_end, while every chat request
of the fetch service client carries exactly meeting_id and query. -/
theorem chat_request_bodies (meeting_id query : String) (k : ℚ)
    (speaker : Option String) (time_end : Option ℚ) (rerank : Bool) :
    fieldNames (askChatBody meeting_id query k speaker time_end rerank) =
      ["meeting_id", "query", "k", "filters", "rerank"] ∧
    fieldNamesAt (askChatBody meeting_id query k speaker time_end rerank)
        "filters" = ["speaker", "time_start", "time_end"] ∧
    fieldNames (serviceChatBody meeting_id query) = ["meeting_id", "query"] :=
  ⟨rfl, rfl, rfl⟩

/-- A chat citation: a transcript time span with start, end and text. -/
structure Citation where
  start : ℚ
  end_ : ℚ
  text : String

/-- A chat response: an answer plus citations. -/
structure ChatResponse where
  answer : String
  citations : List Citation

/-- Modelled from the spec: the backend /api/chat handler is absent from the
provided source (only its interface contract and clients are given). Per the
spec it performs the vector top-K fetch of the retrieval function over the
chunks of the requested meeting and returns an answer with citations drawn
from the retrieved rows, each one the time span of a retrieved chunk. The
answer generation and the optional reranking are external and enter the
model as the opaque parameter gen. -/
def chatEndpoint (gen : List MatchRow → String)
    (dist : List ℚ → List ℚ → ℚ) (db : List Chunk) (q : List ℚ)
    (m : String) (k : Nat) : Except String ChatResponse :=
  match match_chunks dist db q m k with
  | Except.error e => Except.error e
  | Except.ok rows =>
      Except.ok
        { answer := gen rows
          citations := rows.map (fun r =>
            { start := r.start_seconds, end_ := r.end_seconds, text := r.text }) }

/-- C8: every citation of a chat response for meeting m carries the time
range and text of a chunk of meeting m that exists in the store, so no
citation has a fabricated timestamp. -/
theorem chat_citations_grounded (gen : List MatchRow → String)
    (dist : List ℚ → List ℚ → ℚ) (db : List Chunk) (q : List ℚ)
    (m : String) (k : Nat) (resp : ChatResponse) (cit : Citation)
    (hresp : chatEndpoint gen dist db q m k = Except.ok resp)
    (hcit : cit ∈ resp.citations) :
    ∃ c, c ∈ db ∧ c.meeting_id = m ∧ cit.start = c.start_seconds ∧
      cit.end_ = c.end_seconds ∧ cit.text = c.text := by
  unfold chatEndpoint at hresp
  cases hmc : match_chunks dist db q m k with
  | error e => rw [hmc] at hresp; cases hresp
  | ok rows =>
      rw [hmc] at hresp
      obtain rfl : resp = _ := ((Except.ok.injEq _ _).mp hresp).symm
      obtain ⟨r, hrrows, rfl⟩ := List.mem_map.mp hcit
      obtain ⟨c, hc, rfl⟩ :=
        match_chunks_mem_candidates dist db q m k rows r hmc hrrows
      have h := (matchCandidates_mem db m c).mp hc
      exact ⟨c, h.1, h.2.1, rfl, rfl, rfl⟩

/-- Closed instance of C8 at a one-chunk store and a concrete query of the
declared dimension 3072. -/
theorem chat_citations_grounded_witness :
    ∃ c, c ∈ [sampleChunk 1 "m" (some [2])] ∧ c.meeting_id = "m" ∧
      (Citation.mk 0 1 "t").start = c.start_seconds ∧
      (Citation.mk 0 1 "t").end_ = c.end_seconds ∧
      (Citation.mk 0 1 "t").text = c.text :=
  chat_citations_grounded (fun _ => "") (fun e _ => e.headD 0)
    [sampleChunk 1 "m" (some [2])] (List.replicate 3072 0) "m" 5
    (ChatResponse.mk "" [Citation.mk 0 1 "t"]) (Citation.mk 0 1 "t")
    (by
      unfold chatEndpoint
      rw [match_chunks_ok _ _ _ _ _ (List.length_replicate 3072 0)]
      rfl)
    (List.mem_singleton.mpr rfl)

/-- An HTTP response as the fetch service client sees it: the ok flag,
status code and status text, and the body as parsed JSON, with none when
the body is not parseable JSON. -/
structure HttpResponse where
  ok : Bool
  status : Nat
  statusText : String
  body : Option Json

/-- The request helper of the fetch service client: throws an Error whose
message interpolates the status code and status text when the response is
not ok, otherwise resolves to the parsed JSON body, falling back to the
empty object when parsing fails. -/
def request (res : HttpResponse) : Except String Json :=
  if res.ok then
    match res.body with
    | some j => Except.ok j
    | none => Except.ok (Json.obj [])
  else Except.error (toString res.status ++ " " ++ res.statusText)

/-- C9: request throws exactly when the response is not ok, with the
message being the status code, a space and the status text, and an ok
response with an unparseable body resolves to the empty object. -/
theorem request_error_iff (res : HttpResponse) :
    ((∃ msg, request res = Except.error msg) ↔ res.ok = false) ∧
    (res.ok = false →
      request res = Except.error (toString res.status ++ " " ++ res.statusText)) ∧
    (res.ok = true → res.body = none → request res = Except.ok (Json.obj [])) := by
  refine ⟨⟨?_, ?_⟩, ?_, ?_⟩
  · rintro ⟨msg, hmsg⟩
    by_contra hok
    have hok' : res.ok = true := by
      cases h : res.ok
      · exact absurd h hok
      · rfl
    rw [request, if_pos hok'] at hmsg
    cases h : res.body with
    | some j => rw [h] at hmsg; cases hmsg
    | none => rw [h] at hmsg; cases hmsg
  · intro hok
    exact ⟨toString res.status ++ " " ++ res.statusText, by
      rw [request, if_neg (by rw [hok]; exact Bool.false_ne_true)]⟩
  · intro hok
    rw [request, if_neg (by rw [hok]; exact Bool.false_ne_true)]
  · intro hok hbody
    rw [request, if_pos hok, hbody]

/-- Closed instance of C9: a 404 response throws with its status line and
an ok response with an unparseable body resolves to the empty object. -/
theorem request_error_iff_witness :
    request (HttpResponse.mk false 404 "Not Found" none) =
      Except.error ((404 : Nat).repr ++ " " ++ "Not Found") ∧
    request (HttpResponse.mk true 200 "OK" none) = Except.ok (Json.obj []) :=
  ⟨(request_error_iff (HttpResponse.mk false 404 "Not Found" none)).2.1 rfl,
   (request_error_iff (HttpResponse.mk true 200 "OK" none)).2.2 rfl rfl⟩

/-- The getUtterances helper of the axios client, modelled over the parsed
response body: the optional chaining read of items followed by the or-else
fallback to the empty array; none models an absent or undefined body. -/
def getUtterancesResult (data : Option Json) : Json :=
  let items : Json := match data with
    | none => Json.null
    | some d => (getField d "items").getD Json.null
  if jsTruthy items then items else Json.arr []

def isArr : Json → Bool
  | Json.arr _ => true
  | _ => false

/-- C10 fails as stated: a response whose items field holds a truthy
non-array value is passed through unchanged, so getUtterances does not
always resolve to an array. -/
theorem getUtterances_not_always_array :
    getUtterancesResult (some (Json.obj [("items", Json.str "oops")])) =
      Json.str "oops" ∧
    isArr (getUtterancesResult (some (Json.obj [("items", Json.str "oops")]))) =
      false :=
  ⟨rfl, rfl⟩

/-- C10 amended: getUtterances resolves to the empty array whenever the
response body is missing, null, lacks an items field or holds a falsy items
value; whenever the items field holds an array it resolves to exactly that
array; and a truthy items value is passed through unchanged. -/
theorem getUtterances_fallback (d : Json) (xs : List Json) (v : Json) :
    getUtterancesResult none = Json.arr [] ∧
    getUtterancesResult (some Json.null) = Json.arr [] ∧
    (getField d "items" = none → getUtterancesResult (some d) = Json.arr []) ∧
    (getField d "items" = some (Json.arr xs) →
      getUtterancesResult (some d) = Json.arr xs) ∧
    (getField d "items" = some v → jsTruthy v = true →
      getUtterancesResult (some d) = v) ∧
    (getField d "items" = some v → jsTruthy v = false →
      getUtterancesResult (some d) = Json.arr []) := by
  refine ⟨rfl, rfl, ?_, ?_, ?_, ?_⟩
  · intro h
    rw [getUtterancesResult, h]
    rfl
  · intro h
    rw [getUtterancesResult, h]
    rfl
  · intro h ht
    rw [getUtterancesResult, h]
    simp [Option.getD, ht]
  · intro h ht
    rw [getUtterancesResult, h]
    simp [Option.getD, ht]

/-- Closed instance of the C10 fallbacks: a body without items gives the
empty array and a body whose items is an array gives that array. -/
theorem getUtterances_fallback_witness :
    getUtterancesResult (some (Json.obj [("other", Json.num 1)])) =
      Json.arr [] ∧
    getUtterancesResult (some (Json.obj [("items", Json.arr [Json.num 1])])) =
      Json.arr [Json.num 1] :=
  ⟨(getUtterances_fallback (Json.obj [("other", Json.num 1)]) [] Json.null).2.2.1
      rfl,
   (getUtterances_fallback (Json.obj [("items", Json.arr [Json.num 1])])
      [Json.num 1] Json.null).2.2.2.1 rfl⟩
